import Mathlib

/-!
Verification of the banking demo core (`src/app.py`): an in-memory account
ledger composed of the Observer pattern (`Subject`/`Customer`), the Strategy
pattern (`InterestStrategy` variants), and the Command pattern
(`DepositCommand`/`WithdrawCommand` with undo).

Shallow embedding conventions:
* Monetary amounts are exact rationals (the design mandates fixed-point
  decimal arithmetic; Python float literals such as `0.02` are modelled as
  the exact decimals `2/100`).
* Python's `round(x, 2)` (round-half-to-even) is modelled by `pyRound2`.
* Notification messages are modelled by the inductive `Msg`, carrying the
  numeric data interpolated into the Python f-strings; transaction-history
  strings are modelled by the inductive `HistEntry` likewise.
* Mutation is modelled by explicit state passing: each operation returns the
  updated `Account` (and command) together with its boolean result, the list
  of `notify` fan-out calls it performed, and the per-observer delivery
  trace of those fan-outs.
* The Python attribute `interest_strategy` may hold `None`; dispatching on
  `None` raises `AttributeError`, modelled as the `none` result of
  `calculate_yearly_interest`.
-/

namespace BankApp

/-- Monetary amounts, modelled as exact rationals. -/
abbrev Money := ℚ

/-- Round-half-to-even to an integer, Python's `round(q)` on exact values. -/
def roundHalfEven (q : ℚ) : ℤ :=
  let n : ℤ := ⌊q⌋
  let frac : ℚ := q - n
  if frac < 1/2 then n
  else if 1/2 < frac then n + 1
  else if n % 2 = 0 then n else n + 1

/-- Python's `round(q, 2)`: round to two decimal places, half to even. -/
def pyRound2 (q : ℚ) : ℚ := (roundHalfEven (q * 100) : ℚ) / 100

/-- The fixed rate of `SavingsInterest` (`0.02` in the source). -/
def savingsRate : ℚ := 2/100

/-- The fixed rate of `FDInterest` (`0.05` in the source). -/
def fdRate : ℚ := 5/100

/-- The closed family of `InterestStrategy` variants in the source. -/
inductive InterestStrategy where
  | savings   -- `SavingsInterest`, low fixed rate
  | fd        -- `FDInterest`, higher rate
  | current   -- `CurrentInterest`, zero interest
deriving DecidableEq, Repr

/-- Dispatch of `calculate_interest(self, balance)` over the variants:
`SavingsInterest` returns `round(balance * 0.02, 2)`, `FDInterest` returns
`round(balance * 0.05, 2)`, `CurrentInterest` returns `0.00`. -/
def calculate_interest : InterestStrategy → Money → Money
  | .savings, balance => pyRound2 (balance * savingsRate)
  | .fd,      balance => pyRound2 (balance * fdRate)
  | .current, _       => 0

/-- Notification messages, carrying the data of the Python f-strings. -/
inductive Msg where
  /-- "Deposit of $amount successful. New balance: $newBalance" -/
  | depositSuccess (amount newBalance : Money)
  /-- "Withdrawal of $amount successful. New balance: $newBalance" -/
  | withdrawSuccess (amount newBalance : Money)
  /-- "Withdrawal of $amount FAILED. Insufficient funds: $balance" -/
  | withdrawFailed (amount balance : Money)
deriving DecidableEq, Repr

/-- A `Customer` observer: a name and its append-only notification log
(`update` appends the message). -/
structure Customer where
  name : String
  notifications : List Msg
deriving DecidableEq, Repr

/-- `Customer.update(self, message)`: appends the message to the log. -/
def Customer.update (o : Customer) (m : Msg) : Customer :=
  { o with notifications := o.notifications ++ [m] }

/-- The loop body of `Subject.notify`: every attached observer receives the
message via `update`, in list (= attachment) order. -/
def deliverAll (obs : List Customer) (m : Msg) : List Customer :=
  obs.map (fun o => o.update m)

/-- The delivery trace of one `Subject.notify` call: which observer received
which message, in call order. -/
def deliveryTrace (obs : List Customer) (m : Msg) : List (String × Msg) :=
  obs.map (fun o => (o.name, m))

/-- Transaction-history entries, carrying the data of the Python f-strings. -/
inductive HistEntry where
  /-- "Deposit +$amount" -/
  | deposit (amount : Money)
  /-- "Deposit UNDO -$amount" -/
  | depositUndo (amount : Money)
  /-- "Withdrawal -$amount" -/
  | withdrawal (amount : Money)
  /-- "Withdrawal UNDO +$amount" -/
  | withdrawalUndo (amount : Money)
deriving DecidableEq, Repr

/-- The `Account` state: id, name, balance, assigned strategy (the Python
attribute, which may hold `None`), attached observers (from `Subject`), and
the transaction history. -/
structure Account where
  account_id : String
  name : String
  balance : Money
  interest_strategy : Option InterestStrategy
  observers : List Customer
  transaction_history : List HistEntry
deriving DecidableEq, Repr

/-- `Subject.attach(self, observer)`: appends the observer unless already
attached (Python `in`, structural equality in the model). -/
def Account.attach (a : Account) (o : Customer) : Account :=
  if o ∈ a.observers then a else { a with observers := a.observers ++ [o] }

/-- `Account.calculate_yearly_interest(self)`: dispatches
`calculate_interest` on the assigned strategy.  A `None` strategy raises
`AttributeError` in Python, modelled as `none`. -/
def Account.calculate_yearly_interest (a : Account) : Option Money :=
  a.interest_strategy.map (fun s => calculate_interest s a.balance)

/-- Result of one `Account.deposit`/`Account.withdraw` call: the updated
account, the boolean return value, the list of `notify` fan-out calls made
(one `Msg` per call), and the per-observer delivery trace. -/
structure OpResult where
  account : Account
  ok : Bool
  fanouts : List Msg
  deliveries : List (String × Msg)
deriving Repr

/-- `Account.deposit(self, amount)`: adds the amount to the balance, makes
one `notify` fan-out with the success message, returns `True`. -/
def Account.deposit (a : Account) (amount : Money) : OpResult :=
  let b := a.balance + amount
  let m := Msg.depositSuccess amount b
  { account := { a with balance := b, observers := deliverAll a.observers m },
    ok := true, fanouts := [m], deliveries := deliveryTrace a.observers m }

/-- `Account.withdraw(self, amount)`: if `balance >= amount`, subtracts and
makes one `notify` fan-out with the success message, returning `True`;
otherwise leaves the balance unchanged, makes one `notify` fan-out with the
insufficient-funds message, and returns `False`. -/
def Account.withdraw (a : Account) (amount : Money) : OpResult :=
  if amount ≤ a.balance then
    let b := a.balance - amount
    let m := Msg.withdrawSuccess amount b
    { account := { a with balance := b, observers := deliverAll a.observers m },
      ok := true, fanouts := [m], deliveries := deliveryTrace a.observers m }
  else
    let m := Msg.withdrawFailed amount a.balance
    { account := { a with observers := deliverAll a.observers m },
      ok := false, fanouts := [m], deliveries := deliveryTrace a.observers m }

/-- Return values of command `execute`/`undo`, carrying the data of the
Python f-strings. -/
inductive CmdResult where
  /-- "Deposit of $amount executed." -/
  | depositExecuted (amount : Money)
  /-- "Deposit failed." -/
  | depositFailed
  /-- "Deposit of $amount undone." -/
  | depositUndone (amount : Money)
  /-- "Deposit command not executed or already undone." -/
  | depositNotExecuted
  /-- "Withdrawal of $amount executed." -/
  | withdrawalExecuted (amount : Money)
  /-- "Withdrawal failed due to insufficient funds." -/
  | withdrawalFailed
  /-- "Withdrawal of $amount undone." -/
  | withdrawalUndone (amount : Money)
  /-- "Withdrawal command not executed or already undone." -/
  | withdrawalNotExecuted
deriving DecidableEq, Repr

/-- `DepositCommand`: the bound amount and the `_executed` flag (the only
lifecycle state the source keeps; no balance snapshot is stored). -/
structure DepositCommand where
  amount : Money
  executed : Bool
deriving DecidableEq, Repr

/-- `WithdrawCommand`: the bound amount and the `_executed` flag. -/
structure WithdrawCommand where
  amount : Money
  executed : Bool
deriving DecidableEq, Repr

/-- Result of one command `execute`/`undo` step: updated command, updated
account, returned message, and the `notify` fan-out calls performed. -/
structure CmdStep (C : Type) where
  cmd : C
  account : Account
  message : CmdResult
  fanouts : List Msg
deriving Repr

/-- `DepositCommand.execute(self)`: calls `receiver.deposit(amount)`; on
`True` sets `_executed`, appends the history entry and reports success. -/
def DepositCommand.execute (c : DepositCommand) (a : Account) :
    CmdStep DepositCommand :=
  let r := a.deposit c.amount
  if r.ok then
    { cmd := { c with executed := true },
      account := { r.account with
        transaction_history :=
          r.account.transaction_history ++ [HistEntry.deposit c.amount] },
      message := CmdResult.depositExecuted c.amount, fanouts := r.fanouts }
  else
    { cmd := c, account := r.account,
      message := CmdResult.depositFailed, fanouts := r.fanouts }

/-- `DepositCommand.undo(self)`: if `_executed`, calls
`receiver.withdraw(amount)` (return value ignored), appends the UNDO history
entry, clears `_executed` and reports the deposit undone; otherwise a no-op
reporting "not executed or already undone". -/
def DepositCommand.undo (c : DepositCommand) (a : Account) :
    CmdStep DepositCommand :=
  if c.executed then
    let r := a.withdraw c.amount
    { cmd := { c with executed := false },
      account := { r.account with
        transaction_history :=
          r.account.transaction_history ++ [HistEntry.depositUndo c.amount] },
      message := CmdResult.depositUndone c.amount, fanouts := r.fanouts }
  else
    { cmd := c, account := a,
      message := CmdResult.depositNotExecuted, fanouts := [] }

/-- `WithdrawCommand.execute(self)`: calls `receiver.withdraw(amount)`; on
`True` sets `_executed`, appends the history entry and reports success;
otherwise reports failure due to insufficient funds. -/
def WithdrawCommand.execute (c : WithdrawCommand) (a : Account) :
    CmdStep WithdrawCommand :=
  let r := a.withdraw c.amount
  if r.ok then
    { cmd := { c with executed := true },
      account := { r.account with
        transaction_history :=
          r.account.transaction_history ++ [HistEntry.withdrawal c.amount] },
      message := CmdResult.withdrawalExecuted c.amount, fanouts := r.fanouts }
  else
    { cmd := c, account := r.account,
      message := CmdResult.withdrawalFailed, fanouts := r.fanouts }

/-- `WithdrawCommand.undo(self)`: if `_executed`, calls
`receiver.deposit(amount)`, appends the UNDO history entry, clears
`_executed` and reports the withdrawal undone; otherwise a no-op reporting
"not executed or already undone". -/
def WithdrawCommand.undo (c : WithdrawCommand) (a : Account) :
    CmdStep WithdrawCommand :=
  if c.executed then
    let r := a.deposit c.amount
    { cmd := { c with executed := false },
      account := { r.account with
        transaction_history :=
          r.account.transaction_history ++ [HistEntry.withdrawalUndo c.amount] },
      message := CmdResult.withdrawalUndone c.amount, fanouts := r.fanouts }
  else
    { cmd := c, account := a,
      message := CmdResult.withdrawalNotExecuted, fanouts := [] }

/-- A concrete test account (mirrors `account_savings` with no observers). -/
def mkAccount (bal : Money) (strat : Option InterestStrategy) : Account :=
  { account_id := "S101", name := "Alice Savings", balance := bal,
    interest_strategy := strat, observers := [], transaction_history := [] }

/-- Reachable-state invariant of the data model: a nonnegative balance stays
nonnegative under `deposit` and `withdraw` with a positive amount (both demo
accounts start nonnegative, at 1000.00 and 500.00). -/
theorem balance_nonneg_preserved (a : Account) (amt : Money)
    (h0 : 0 ≤ a.balance) (hpos : 0 < amt) :
    0 ≤ (a.deposit amt).account.balance ∧
    0 ≤ (a.withdraw amt).account.balance := by
  unfold Account.deposit Account.withdraw
  by_cases h : amt ≤ a.balance
  · simp only [if_pos h]
    exact ⟨by linarith, by simpa using sub_nonneg.mpr h⟩
  · simp only [if_neg h]
    exact ⟨by linarith, h0⟩

/-- C1: `Account.withdraw(amount)` with `amount > 0` succeeds (returns the
truthy result) iff `amount <= balance` at call time; on success the balance
decreases by `amount`, one success notification is sent, and the resulting
balance is nonnegative; on insufficient funds the balance is unchanged, one
failure notification is sent, and the call returns the falsy result (a
normal return value — `withdraw` is a total function, not an exception). -/
theorem withdraw_spec (a : Account) (amt : Money) (_hpos : 0 < amt) :
    ((a.withdraw amt).ok = true ↔ amt ≤ a.balance) ∧
    ((a.withdraw amt).ok = true →
      (a.withdraw amt).account.balance = a.balance - amt ∧
      (a.withdraw amt).fanouts = [Msg.withdrawSuccess amt (a.balance - amt)] ∧
      0 ≤ (a.withdraw amt).account.balance) ∧
    ((a.withdraw amt).ok = false →
      (a.withdraw amt).account.balance = a.balance ∧
      (a.withdraw amt).fanouts = [Msg.withdrawFailed amt a.balance]) := by
  unfold Account.withdraw
  by_cases h : amt ≤ a.balance
  · simp only [if_pos h]
    simp [h, sub_nonneg.mpr h]
  · simp only [if_neg h]
    simp [h]

/-- C1 witness: a concrete instance, account balance 10, withdrawal of 3. -/
theorem withdraw_spec_witness :
    (0 : Money) < 3 ∧
    ((((mkAccount 10 none).withdraw 3).ok = true ↔
        (3 : Money) ≤ (mkAccount 10 none).balance) ∧
     ((((mkAccount 10 none).withdraw 3)).ok = true →
       ((mkAccount 10 none).withdraw 3).account.balance
          = (mkAccount 10 none).balance - 3 ∧
       ((mkAccount 10 none).withdraw 3).fanouts
          = [Msg.withdrawSuccess 3 ((mkAccount 10 none).balance - 3)] ∧
       0 ≤ ((mkAccount 10 none).withdraw 3).account.balance) ∧
     (((mkAccount 10 none).withdraw 3).ok = false →
       ((mkAccount 10 none).withdraw 3).account.balance
          = (mkAccount 10 none).balance ∧
       ((mkAccount 10 none).withdraw 3).fanouts
          = [Msg.withdrawFailed 3 (mkAccount 10 none).balance])) :=
  ⟨by norm_num, withdraw_spec (mkAccount 10 none) 3 (by norm_num)⟩

/-- C5: `Account.deposit(amount)` with `amount > 0` always succeeds (returns
the truthy result), increases the balance by exactly `amount`, and makes
exactly one notification fan-out whose success message carries the new
balance. -/
theorem deposit_spec (a : Account) (amt : Money) (_hpos : 0 < amt) :
    (a.deposit amt).ok = true ∧
    (a.deposit amt).account.balance = a.balance + amt ∧
    (a.deposit amt).fanouts = [Msg.depositSuccess amt (a.balance + amt)] := by
  exact ⟨rfl, rfl, rfl⟩

/-- C5 witness: a concrete instance, account balance 10, deposit of 3. -/
theorem deposit_spec_witness :
    (0 : Money) < 3 ∧
    (((mkAccount 10 none).deposit 3).ok = true ∧
     ((mkAccount 10 none).deposit 3).account.balance
        = (mkAccount 10 none).balance + 3 ∧
     ((mkAccount 10 none).deposit 3).fanouts
        = [Msg.depositSuccess 3 ((mkAccount 10 none).balance + 3)]) :=
  ⟨by norm_num, deposit_spec (mkAccount 10 none) 3 (by norm_num)⟩

/-- C6: every balance-changing operation (`deposit`, and `withdraw` whether
it succeeds or fails) makes exactly one notification fan-out call; the
fan-out delivers its message to every attached observer in attachment (list)
order, so each observer's log grows by exactly one message and the number of
deliveries equals the number of attached observers. -/
theorem notify_fanout_spec (a : Account) (amt : Money) :
    (a.deposit amt).fanouts.length = 1 ∧
    (a.withdraw amt).fanouts.length = 1 ∧
    (∃ m, (a.deposit amt).fanouts = [m] ∧
        (a.deposit amt).account.observers = deliverAll a.observers m ∧
        (a.deposit amt).deliveries = deliveryTrace a.observers m) ∧
    (∃ m, (a.withdraw amt).fanouts = [m] ∧
        (a.withdraw amt).account.observers = deliverAll a.observers m ∧
        (a.withdraw amt).deliveries = deliveryTrace a.observers m) ∧
    (a.deposit amt).deliveries.length = a.observers.length ∧
    (a.withdraw amt).deliveries.length = a.observers.length ∧
    ((a.deposit amt).account.observers.map (fun o => o.notifications.length))
      = a.observers.map (fun o => o.notifications.length + 1) := by
  unfold Account.deposit Account.withdraw
  by_cases h : amt ≤ a.balance
  · simp only [if_pos h]
    refine ⟨rfl, rfl, ⟨_, rfl, rfl, rfl⟩, ⟨_, rfl, rfl, rfl⟩,
      by simp [deliveryTrace], by simp [deliveryTrace], ?_⟩
    simp [deliverAll, Customer.update]
  · simp only [if_neg h]
    refine ⟨rfl, rfl, ⟨_, rfl, rfl, rfl⟩, ⟨_, rfl, rfl, rfl⟩,
      by simp [deliveryTrace], by simp [deliveryTrace], ?_⟩
    simp [deliverAll, Customer.update]

/-- C4: executing a fresh `DepositCommand`, or a successfully-executing
fresh `WithdrawCommand`, and immediately undoing it restores the exact
pre-execution balance.  The account satisfies the data-model invariant
`0 ≤ balance` (see `balance_nonneg_preserved`), which is what makes the
reversing withdrawal of the deposit succeed. -/
theorem execute_undo_roundtrip (a : Account) (amt : Money)
    (_hpos : 0 < amt) (hnn : 0 ≤ a.balance) :
    (DepositCommand.undo (DepositCommand.execute ⟨amt, false⟩ a).cmd
        (DepositCommand.execute ⟨amt, false⟩ a).account).account.balance
      = a.balance ∧
    (amt ≤ a.balance →
      (WithdrawCommand.undo (WithdrawCommand.execute ⟨amt, false⟩ a).cmd
          (WithdrawCommand.execute ⟨amt, false⟩ a).account).account.balance
        = a.balance) := by
  constructor
  · unfold DepositCommand.execute DepositCommand.undo
      Account.deposit Account.withdraw
    have h1 : amt ≤ a.balance + amt := by linarith
    simp [h1]
  · intro hle
    unfold WithdrawCommand.execute WithdrawCommand.undo
      Account.withdraw Account.deposit
    simp [hle]

/-- C4 witness: a concrete instance, account balance 100, amount 5, for
both command kinds. -/
theorem execute_undo_roundtrip_witness :
    (0 : Money) < 5 ∧ (0 : Money) ≤ (mkAccount 100 none).balance ∧
    (DepositCommand.undo
        (DepositCommand.execute ⟨5, false⟩ (mkAccount 100 none)).cmd
        (DepositCommand.execute ⟨5, false⟩ (mkAccount 100 none)).account
      ).account.balance = (mkAccount 100 none).balance ∧
    ((5 : Money) ≤ (mkAccount 100 none).balance ∧
      (WithdrawCommand.undo
          (WithdrawCommand.execute ⟨5, false⟩ (mkAccount 100 none)).cmd
          (WithdrawCommand.execute ⟨5, false⟩ (mkAccount 100 none)).account
        ).account.balance = (mkAccount 100 none).balance) :=
  ⟨by norm_num, by norm_num [mkAccount],
   (execute_undo_roundtrip (mkAccount 100 none) 5 (by norm_num)
      (by norm_num [mkAccount])).1,
   by norm_num [mkAccount],
   (execute_undo_roundtrip (mkAccount 100 none) 5 (by norm_num)
      (by norm_num [mkAccount])).2 (by norm_num [mkAccount])⟩

/-- C9: `undo()` on a command whose `_executed` flag is `False` — which is
how the source represents both the never-executed (Created) state and the
already-undone (Undone) state — is a total no-op: the command, the account
(balance, observer logs and transaction history alike) are returned
unchanged, no notification is made, and the "not executed or already
undone" message is reported (no exception: `undo` is a total function). -/
theorem undo_noop_spec (c : DepositCommand) (w : WithdrawCommand)
    (a : Account) (hc : c.executed = false) (hw : w.executed = false) :
    c.undo a = ⟨c, a, CmdResult.depositNotExecuted, []⟩ ∧
    w.undo a = ⟨w, a, CmdResult.withdrawalNotExecuted, []⟩ := by
  unfold DepositCommand.undo WithdrawCommand.undo
  simp [hc, hw]

/-- C9 witness: concrete never-executed commands over a concrete account. -/
theorem undo_noop_spec_witness :
    ({ amount := 5, executed := false } : DepositCommand).executed = false ∧
    ({ amount := 7, executed := false } : WithdrawCommand).executed = false ∧
    (DepositCommand.undo { amount := 5, executed := false } (mkAccount 10 none)
        = ⟨{ amount := 5, executed := false }, mkAccount 10 none,
           CmdResult.depositNotExecuted, []⟩ ∧
     WithdrawCommand.undo { amount := 7, executed := false } (mkAccount 10 none)
        = ⟨{ amount := 7, executed := false }, mkAccount 10 none,
           CmdResult.withdrawalNotExecuted, []⟩) :=
  ⟨rfl, rfl, undo_noop_spec _ _ _ rfl rfl⟩

/-- C10: on an executed `DepositCommand`, if the live balance is strictly
below the deposited amount at `undo()` time, the reversing withdrawal fails
(its return value is ignored): the balance is unchanged and an
insufficient-funds notification is fanned out, yet the UNDO history entry is
still appended, the `_executed` flag is cleared, and the "deposit undone"
message is returned. -/
theorem deposit_undo_insufficient_spec (c : DepositCommand) (a : Account)
    (hx : c.executed = true) (hlt : a.balance < c.amount) :
    (c.undo a).account.balance = a.balance ∧
    (c.undo a).account.transaction_history
      = a.transaction_history ++ [HistEntry.depositUndo c.amount] ∧
    (c.undo a).cmd.executed = false ∧
    (c.undo a).message = CmdResult.depositUndone c.amount ∧
    (c.undo a).fanouts = [Msg.withdrawFailed c.amount a.balance] := by
  unfold DepositCommand.undo Account.withdraw
  simp [hx, not_le.mpr hlt]

/-- C10 witness: executed deposit of 50 undone on an account holding 10. -/
theorem deposit_undo_insufficient_spec_witness :
    ({ amount := 50, executed := true } : DepositCommand).executed = true ∧
    (mkAccount 10 none).balance < 50 ∧
    ((DepositCommand.undo { amount := 50, executed := true }
        (mkAccount 10 none)).account.balance = (mkAccount 10 none).balance ∧
     (DepositCommand.undo { amount := 50, executed := true }
        (mkAccount 10 none)).account.transaction_history
       = (mkAccount 10 none).transaction_history ++ [HistEntry.depositUndo 50] ∧
     (DepositCommand.undo { amount := 50, executed := true }
        (mkAccount 10 none)).cmd.executed = false ∧
     (DepositCommand.undo { amount := 50, executed := true }
        (mkAccount 10 none)).message = CmdResult.depositUndone 50 ∧
     (DepositCommand.undo { amount := 50, executed := true }
        (mkAccount 10 none)).fanouts
       = [Msg.withdrawFailed 50 (mkAccount 10 none).balance]) :=
  ⟨rfl, by norm_num [mkAccount],
   deposit_undo_insufficient_spec _ _ rfl (by norm_num [mkAccount])⟩

/-- C8: the strategy variants apply their fixed multipliers with the result
rounded to two decimal places: `SavingsInterest` at rate 2% (within the low
2–4% range), `FDInterest` at rate 5% (within the high 5–7% range),
`CurrentInterest` returning zero for every balance; at balance 1000 the
high-rate variant returns exactly 50.00. -/
theorem interest_rates_spec :
    ((2 : ℚ)/100 ≤ savingsRate ∧ savingsRate ≤ (4 : ℚ)/100) ∧
    ((5 : ℚ)/100 ≤ fdRate ∧ fdRate ≤ (7 : ℚ)/100) ∧
    (∀ b : Money,
      calculate_interest InterestStrategy.savings b = pyRound2 (b * savingsRate)) ∧
    (∀ b : Money,
      calculate_interest InterestStrategy.fd b = pyRound2 (b * fdRate)) ∧
    (∀ b : Money, calculate_interest InterestStrategy.current b = 0) ∧
    calculate_interest InterestStrategy.fd 1000 = 50 :=
  ⟨⟨by norm_num [savingsRate], by norm_num [savingsRate]⟩,
   ⟨by norm_num [fdRate], by norm_num [fdRate]⟩,
   fun _ => rfl, fun _ => rfl, fun _ => rfl,
   by norm_num [calculate_interest, pyRound2, roundHalfEven, fdRate]⟩

/-- C7 counterexample: with no strategy assigned (the Python attribute holds
`None`), `calculate_yearly_interest` does not return zero — the dispatch on
the missing strategy fails (`none`, modelling the `AttributeError`). -/
theorem interest_no_strategy_cex :
    (mkAccount 1000 none).calculate_yearly_interest = none ∧
    (mkAccount 1000 none).calculate_yearly_interest ≠ some 0 := by
  constructor <;> simp [Account.calculate_yearly_interest, mkAccount]

/-- C7 amended: `calculate_yearly_interest` delegates to the currently
assigned strategy on the current balance; there is no zero-on-absence
handling — with no strategy assigned the call fails (yields no result)
rather than returning zero. -/
theorem interest_delegation_spec (a : Account) :
    (∀ s, a.interest_strategy = some s →
      a.calculate_yearly_interest = some (calculate_interest s a.balance)) ∧
    (a.interest_strategy = none → a.calculate_yearly_interest = none) := by
  constructor
  · intro s hs
    simp [Account.calculate_yearly_interest, hs]
  · intro h
    simp [Account.calculate_yearly_interest, h]

/-- C7 witness: delegation at the concrete high-rate strategy. -/
theorem interest_delegation_spec_witness :
    (mkAccount 1000 (some InterestStrategy.fd)).interest_strategy
        = some InterestStrategy.fd ∧
    (mkAccount 1000 (some InterestStrategy.fd)).calculate_yearly_interest
      = some (calculate_interest InterestStrategy.fd
          (mkAccount 1000 (some InterestStrategy.fd)).balance) :=
  ⟨rfl, (interest_delegation_spec (mkAccount 1000 (some InterestStrategy.fd))).1
      InterestStrategy.fd rfl⟩

/-- Scenario refuting the snapshot reading of undo: deposit 50 onto balance
100, then an interleaved deposit of 30, then undo the command; the final
balance as computed by the source's undo. -/
def snapshotScenario : Money :=
  let s1 := DepositCommand.execute ⟨50, false⟩ (mkAccount 100 none)
  let a2 := (s1.account.deposit 30).account
  (s1.cmd.undo a2).account.balance

/-- C2 counterexample: the command stores no pre-execution balance snapshot;
after an interleaved deposit of 30, undoing the 50-deposit executed at
balance 100 yields 130 (live balance minus amount), not the pre-execution
snapshot 100. -/
theorem undo_snapshot_cex :
    snapshotScenario = 130 ∧ snapshotScenario ≠ 100 := by
  constructor <;>
    norm_num [snapshotScenario, DepositCommand.execute, DepositCommand.undo,
      Account.deposit, Account.withdraw, mkAccount, deliverAll, deliveryTrace]

/-- C2 amended: `undo()` on an executed command reverses by re-running the
inverse operation against the live balance — an executed `WithdrawCommand`
undoes by adding its amount to the live balance, an executed
`DepositCommand` (when the live balance covers the amount) by subtracting
it; no snapshot is restored, so interleaved changes persist. -/
theorem undo_inverse_op_spec (c : DepositCommand) (w : WithdrawCommand)
    (a : Account) (hc : c.executed = true) (hw : w.executed = true)
    (hle : c.amount ≤ a.balance) :
    (c.undo a).account.balance = a.balance - c.amount ∧
    (w.undo a).account.balance = a.balance + w.amount := by
  unfold DepositCommand.undo WithdrawCommand.undo
    Account.withdraw Account.deposit
  simp [hc, hw, hle]

/-- C2 amended witness: deposit 50 and withdrawal 20 undone on balance 100. -/
theorem undo_inverse_op_spec_witness :
    ({ amount := 50, executed := true } : DepositCommand).executed = true ∧
    ({ amount := 20, executed := true } : WithdrawCommand).executed = true ∧
    (50 : Money) ≤ (mkAccount 100 none).balance ∧
    ((DepositCommand.undo { amount := 50, executed := true }
        (mkAccount 100 none)).account.balance
      = (mkAccount 100 none).balance - 50 ∧
     (WithdrawCommand.undo { amount := 20, executed := true }
        (mkAccount 100 none)).account.balance
      = (mkAccount 100 none).balance + 20) :=
  ⟨rfl, rfl, by norm_num [mkAccount],
   undo_inverse_op_spec _ _ _ rfl rfl (by norm_num [mkAccount])⟩

/-- Scenario: executing the same deposit command twice in a row. -/
def doubleExec : CmdStep DepositCommand :=
  let s1 := DepositCommand.execute ⟨5, false⟩ (mkAccount 0 none)
  s1.cmd.execute s1.account

/-- Scenario: execute, undo, then execute the same command again. -/
def execAfterUndo : CmdStep DepositCommand :=
  let s1 := DepositCommand.execute ⟨5, false⟩ (mkAccount 0 none)
  let s2 := s1.cmd.undo s1.account
  s2.cmd.execute s2.account

/-- C3 counterexample: the lifecycle is not enforced.  A second `execute()`
on an already-executed deposit command deposits again (balance 10 after two
executes of 5) and reports success, and after an undo the same command can
be re-executed effectively (balance 5 again, flag set, success reported) —
so more than one `execute()` takes effect on one instance. -/
theorem command_lifecycle_cex :
    (DepositCommand.execute ⟨5, false⟩ (mkAccount 0 none)).cmd.executed
        = true ∧
    doubleExec.account.balance = 10 ∧
    doubleExec.message = CmdResult.depositExecuted 5 ∧
    execAfterUndo.account.balance = 5 ∧
    execAfterUndo.cmd.executed = true ∧
    execAfterUndo.message = CmdResult.depositExecuted 5 := by
  norm_num [doubleExec, execAfterUndo, DepositCommand.execute,
    DepositCommand.undo, Account.deposit, Account.withdraw, mkAccount,
    deliverAll, deliveryTrace]

/-- C3 amended: a command carries only a boolean `_executed` flag, with no
Created/Undone distinction and no guard on `execute()`, for both command
kinds: `execute()` on a deposit command always performs the deposit, and on
a withdrawal command performs the withdrawal whenever funds suffice, in each
case appending the history entry and setting the flag whatever the prior
state; `undo()` on either kind clears the flag when it is set.  Hence
commands can be executed repeatedly and re-executed after an undo. -/
theorem command_flag_spec (c : DepositCommand) (w : WithdrawCommand)
    (a : Account) :
    ((c.execute a).cmd.executed = true ∧
     (c.execute a).account.balance = a.balance + c.amount ∧
     (c.execute a).account.transaction_history
       = a.transaction_history ++ [HistEntry.deposit c.amount]) ∧
    (w.amount ≤ a.balance →
      (w.execute a).cmd.executed = true ∧
      (w.execute a).account.balance = a.balance - w.amount ∧
      (w.execute a).account.transaction_history
        = a.transaction_history ++ [HistEntry.withdrawal w.amount]) ∧
    (c.executed = true → (c.undo a).cmd.executed = false) ∧
    (w.executed = true → (w.undo a).cmd.executed = false) := by
  refine ⟨?_, ?_, ?_, ?_⟩
  · unfold DepositCommand.execute Account.deposit
    simp
  · intro hle
    unfold WithdrawCommand.execute Account.withdraw
    simp [hle]
  · intro hx
    unfold DepositCommand.undo
    simp [hx]
  · intro hx
    unfold WithdrawCommand.undo
    simp [hx]

/-- C3 amended witness: commands of both kinds already in the executed state
are executed again effectively, and their undos clear the flag. -/
theorem command_flag_spec_witness :
    ((DepositCommand.execute { amount := 5, executed := true }
        (mkAccount 100 none)).cmd.executed = true ∧
     (DepositCommand.execute { amount := 5, executed := true }
        (mkAccount 100 none)).account.balance
       = (mkAccount 100 none).balance + 5 ∧
     (DepositCommand.execute { amount := 5, executed := true }
        (mkAccount 100 none)).account.transaction_history
       = (mkAccount 100 none).transaction_history ++ [HistEntry.deposit 5]) ∧
    ((3 : Money) ≤ (mkAccount 100 none).balance ∧
     ((WithdrawCommand.execute { amount := 3, executed := true }
         (mkAccount 100 none)).cmd.executed = true ∧
      (WithdrawCommand.execute { amount := 3, executed := true }
         (mkAccount 100 none)).account.balance
        = (mkAccount 100 none).balance - 3 ∧
      (WithdrawCommand.execute { amount := 3, executed := true }
         (mkAccount 100 none)).account.transaction_history
        = (mkAccount 100 none).transaction_history
            ++ [HistEntry.withdrawal 3])) ∧
    (({ amount := 5, executed := true } : DepositCommand).executed = true ∧
     (DepositCommand.undo { amount := 5, executed := true }
        (mkAccount 100 none)).cmd.executed = false) ∧
    (({ amount := 3, executed := true } : WithdrawCommand).executed = true ∧
     (WithdrawCommand.undo { amount := 3, executed := true }
        (mkAccount 100 none)).cmd.executed = false) :=
  ⟨(command_flag_spec { amount := 5, executed := true }
      { amount := 3, executed := true } (mkAccount 100 none)).1,
   ⟨by norm_num [mkAccount],
    (command_flag_spec { amount := 5, executed := true }
       { amount := 3, executed := true } (mkAccount 100 none)).2.1
      (by norm_num [mkAccount])⟩,
   ⟨rfl,
    (command_flag_spec { amount := 5, executed := true }
       { amount := 3, executed := true } (mkAccount 100 none)).2.2.1 rfl⟩,
   ⟨rfl,
    (command_flag_spec { amount := 5, executed := true }
       { amount := 3, executed := true } (mkAccount 100 none)).2.2.2 rfl⟩⟩

end BankApp
